import Mathlib

/-!
Verification of the training/evaluation control loop of cli/train.py.

Shallow embedding of the source: the loop controller, the batch collator, the
sequence preprocessor, the step-executor diagnostic accuracy and the
decoder/evaluator are translated into executable Lean definitions; external
collaborators (the model, the tokenizer, the sacrebleu metric) are abstracted
as function parameters.  Python exceptions are modelled with Option/Except.
-/

/- ===== Loop Controller (cli/train.py, main, lines 475-553) ===== -/

/-- One epoch of the inner batch loop (lines 482-553): each processed batch
performs one optimization step and increments global_step by one (lines
486-499); after the step, if `global_step >= args.max_train_steps`, the inner
loop breaks (lines 552-553).  `g` is the value of global_step on entry,
`numBatches` the number of batches the train dataloader yields in one epoch.
Returns global_step after the epoch (equivalently, the total number of
optimization steps executed so far). -/
def runEpochSteps (maxTrainSteps : Nat) : Nat → Nat → Nat
  | g, 0 => g
  | g, numBatches + 1 =>
    if maxTrainSteps ≤ g + 1 then g + 1
    else runEpochSteps maxTrainSteps (g + 1) numBatches

/-- The outer epoch loop (line 478): `for epoch in range(args.num_train_epochs)`.
The source contains no break statement in the outer loop; it always iterates
exactly `num_train_epochs` times, each iteration running the inner batch loop. -/
def loopSteps (maxTrainSteps numBatchesPerEpoch : Nat) : Nat → Nat → Nat
  | 0, g => g
  | numEpochs + 1, g =>
    loopSteps maxTrainSteps numBatchesPerEpoch numEpochs
      (runEpochSteps maxTrainSteps g numBatchesPerEpoch)

/-- Total number of optimization steps executed by the training loop of main
(the final value of global_step, which counts optimizer updates). -/
def trainLoopSteps (numTrainEpochs numBatchesPerEpoch maxTrainSteps : Nat) : Nat :=
  loopSteps maxTrainSteps numBatchesPerEpoch numTrainEpochs 0

/-- Line 448: when --max_train_steps is given,
`args.num_train_epochs = math.ceil(args.max_train_steps / num_update_steps_per_epoch)`;
for natural inputs the ceiling is `(maxTrainSteps + numBatchesPerEpoch - 1) / numBatchesPerEpoch`. -/
def recomputedNumTrainEpochs (maxTrainSteps numBatchesPerEpoch : Nat) : Nat :=
  (maxTrainSteps + numBatchesPerEpoch - 1) / numBatchesPerEpoch

/-- The loop the spec describes (second definition, following the spec text,
for comparison with `trainLoopSteps`): the run "breaks out of both loops as
soon as global_step >= max_train_steps", i.e. the outer epoch loop also stops
as soon as the step bound is reached. -/
def specLoopAux (maxTrainSteps numBatchesPerEpoch : Nat) : Nat → Nat → Nat
  | 0, g => g
  | numEpochs + 1, g =>
    if maxTrainSteps ≤ g then g
    else specLoopAux maxTrainSteps numBatchesPerEpoch numEpochs
      (runEpochSteps maxTrainSteps g numBatchesPerEpoch)

/-- Steps executed by the loop as the spec describes it (both loops break as
soon as global_step reaches max_train_steps). -/
def specLoopSteps (numTrainEpochs numBatchesPerEpoch maxTrainSteps : Nat) : Nat :=
  specLoopAux maxTrainSteps numBatchesPerEpoch numTrainEpochs 0

lemma runEpochSteps_eq_min (m : Nat) :
    ∀ (nb g : Nat), g < m → runEpochSteps m g nb = min (g + nb) m := by
  intro nb
  induction nb with
  | zero =>
    intro g hg
    simp only [runEpochSteps]
    omega
  | succ nb ih =>
    intro g hg
    simp only [runEpochSteps]
    by_cases h : m ≤ g + 1
    · rw [if_pos h]
      omega
    · rw [if_neg h]
      rw [ih (g + 1) (by omega)]
      omega

lemma loopSteps_exact (m per : Nat) :
    ∀ (e g B : Nat), B = e * per → g < m → m ≤ g + B → g + B < m + per →
      loopSteps m per e g = m := by
  intro e
  induction e with
  | zero =>
    intro g B hB h0 h1 h2
    exfalso
    simp only [Nat.zero_mul] at hB
    omega
  | succ n ih =>
    intro g B hB h0 h1 h2
    have hB2 : B = n * per + per := by rw [hB, Nat.succ_mul]
    obtain ⟨C, hC⟩ : ∃ C, C = n * per := ⟨n * per, rfl⟩
    rw [← hC] at hB2
    clear hB
    simp only [loopSteps]
    rw [runEpochSteps_eq_min m per g h0]
    by_cases hc : m ≤ g + per
    · have hmin : min (g + per) m = m := by omega
      rw [hmin]
      have hn : n = 0 := by
        by_contra hne
        have hle : per ≤ C := by
          rw [hC]
          exact Nat.le_mul_of_pos_left per (Nat.pos_of_ne_zero hne)
        omega
      subst hn
      simp [loopSteps]
    · have hmin : min (g + per) m = g + per := by omega
      rw [hmin]
      exact ih (g + per) C hC (by omega) (by omega) (by omega)

/-- Claim C1 (counterexample): the training loop of main does not break out of
the outer epoch loop, and the recomputed num_train_epochs does gate
termination.  With 2 batches per epoch and max_train_steps = 1: the spec's
rule (break out of both loops as soon as global_step >= max_train_steps) would
stop after 1 step regardless of the epoch bound, while the loop as written
executes one further optimization step in each additional epoch: with an
epoch bound of 5 it performs 5 steps, 4 of them after global_step reached
max_train_steps.  (With the recomputed bound ceil(1/2) = 1 the two agree,
which is exactly the epoch bound gating termination.) -/
theorem trainLoop_break_counterexample_C1 :
    trainLoopSteps 5 2 1 = 5 ∧ specLoopSteps 5 2 1 = 1 ∧
      recomputedNumTrainEpochs 1 2 = 1 ∧ trainLoopSteps 1 2 1 = 1 := by
  decide

/-- Claim C1 (amended): the `global_step >= max_train_steps` check (lines
552-553) breaks only the inner batch loop; the outer epoch loop is gated by
`num_train_epochs`.  When max_train_steps is given as an override,
num_train_epochs is recomputed by ceiling-division (line 448), and with that
recomputed bound the loop executes exactly max_train_steps optimization
steps, so no optimization step runs after global_step reaches
max_train_steps. -/
theorem trainLoop_recomputed_exact_C1 (numBatchesPerEpoch maxTrainSteps : Nat)
    (hper : 0 < numBatchesPerEpoch) :
    trainLoopSteps (recomputedNumTrainEpochs maxTrainSteps numBatchesPerEpoch)
      numBatchesPerEpoch maxTrainSteps = maxTrainSteps := by
  rcases Nat.eq_zero_or_pos maxTrainSteps with h0 | hm
  · subst h0
    have hE : recomputedNumTrainEpochs 0 numBatchesPerEpoch = 0 := by
      simp only [recomputedNumTrainEpochs]
      apply Nat.div_eq_of_lt
      omega
    rw [hE]
    rfl
  · obtain ⟨T, hT⟩ : ∃ T, T = numBatchesPerEpoch *
        recomputedNumTrainEpochs maxTrainSteps numBatchesPerEpoch := ⟨_, rfl⟩
    obtain ⟨r, hr⟩ : ∃ r, r = (maxTrainSteps + numBatchesPerEpoch - 1) % numBatchesPerEpoch :=
      ⟨_, rfl⟩
    have hmod : r < numBatchesPerEpoch := by
      rw [hr]
      exact Nat.mod_lt _ hper
    have hTE : T + r = maxTrainSteps + numBatchesPerEpoch - 1 := by
      rw [hT, hr]
      simp only [recomputedNumTrainEpochs]
      exact Nat.div_add_mod _ _
    have hmul : recomputedNumTrainEpochs maxTrainSteps numBatchesPerEpoch *
        numBatchesPerEpoch = T := by
      rw [hT, Nat.mul_comm]
    apply loopSteps_exact maxTrainSteps numBatchesPerEpoch
      (recomputedNumTrainEpochs maxTrainSteps numBatchesPerEpoch) 0
      (recomputedNumTrainEpochs maxTrainSteps numBatchesPerEpoch * numBatchesPerEpoch)
      rfl hm
    · rw [hmul]
      omega
    · rw [hmul]
      omega

/-- Witness for the amended C1 theorem at a concrete input: 2 batches per
epoch, override max_train_steps = 5; the recomputed epoch bound is 3 and the
loop executes exactly 5 optimization steps. -/
theorem trainLoop_recomputed_exact_C1_witness :
    0 < 2 ∧ trainLoopSteps (recomputedNumTrainEpochs 5 2) 2 5 = 5 :=
  ⟨by decide, trainLoop_recomputed_exact_C1 2 5 (by decide)⟩

/- ===== Decoder/Evaluator (cli/train.py, evaluate_model, lines 306-346) ===== -/

/-- One batch yielded by the evaluation dataloader: the collated input_ids and
labels matrices (rows are examples). -/
structure EvalBatch where
  input_ids : List (List Nat)
  labels : List (List Nat)
deriving DecidableEq

/-- The evaluation results dict built at lines 342-345: keys "bleu" and
"generation_length". -/
structure EvalResults where
  bleu : ℚ
  generation_length : ℚ
deriving DecidableEq

/-- Python runtime errors relevant to evaluate_model.  generationError stands
for any exception raised inside the per-batch loop (lines 317-336), e.g. by
model.generate; bleuComputeError stands for an exception raised by
bleu.compute() (line 340) — in particular the datasets metric raises when
compute() is called on an accumulator into which nothing was ever added,
which is exactly the empty-dataloader case; zeroDivisionError is what
`n_generated_tokens / len(dataloader.dataset)` (line 344) raises when the
dataset is empty and compute returned a value; emptyEvaluationSetError is the
error class named by the spec — it appears nowhere in the source and is
included only so that statements about it can be made. -/
inductive PyError where
  | zeroDivisionError
  | generationError
  | bleuComputeError
  | emptyEvaluationSetError
deriving DecidableEq

/-- The train/eval mode flag of the torch module: model.train() /
model.eval(). -/
inductive Mode where
  | train
  | eval
deriving DecidableEq

/-- Whitespace test for the strip model below (space, tab, newline, carriage
return — the characters Python str.strip() removes by default). -/
def isPythonWs (c : Char) : Bool := c = ' ' || c = '\t' || c = '\n' || c = '\r'

/-- Executable whitespace strip, the model of Python str.strip(): removes
leading and trailing whitespace characters. -/
def stripWs (s : String) : String :=
  String.mk (((s.data.dropWhile isPythonWs).reverse.dropWhile isPythonWs).reverse)

/-- Modelled from the spec: utils.postprocess_text (the transformer_mt/utils.py
module is imported at line 42 but is not under src/).  Spec section 4.4: a
normalization step applied uniformly to predictions and references before
scoring — trims incidental whitespace and wraps each reference in a
single-element list. -/
def postprocess_text (preds labels : List String) :
    List String × List (List String) :=
  (preds.map (fun s => stripWs s), labels.map (fun l => [stripWs l]))

/-- The per-batch loop of evaluate_model (lines 317-336), as a fold over the
list of batches with the accumulated state (n_generated_tokens, the bleu
accumulator's predictions, the bleu accumulator's references).  Per batch:
generate token-id sequences with `model.generate(input_ids,
max_length=max_seq_length, num_beams=beam_size)` (lines 322-326), decode
predictions and labels (lines 328-329), add the re-tokenized length of every
decoded prediction to n_generated_tokens (lines 331-332), post-process (line
334) and append to the bleu accumulator via bleu.add_batch (line 336).
`generate` returning none models an exception raised by the generation call,
which propagates out of the loop. -/
def evalLoop (generate : List (List Nat) → Nat → Nat → Option (List (List Nat)))
    (decode : List Nat → String) (tokLen : String → Nat)
    (maxSeqLength numBeams : Nat) :
    List EvalBatch → Nat → List String → List (List String) →
      Option (Nat × List String × List (List String))
  | [], nGen, accPreds, accRefs => some (nGen, accPreds, accRefs)
  | b :: rest, nGen, accPreds, accRefs =>
    match generate b.input_ids maxSeqLength numBeams with
    | none => none
    | some generatedTokens =>
      let decodedPreds := generatedTokens.map decode
      let decodedLabels := b.labels.map decode
      let nGen1 := nGen + (decodedPreds.map tokLen).sum
      let pp := postprocess_text decodedPreds decodedLabels
      evalLoop generate decode tokLen maxSeqLength numBeams rest nGen1
        (accPreds ++ pp.1) (accRefs ++ pp.2)

/-- evaluate_model (lines 306-346).  `generate`, `decode` (batch_decode with
skip_special_tokens) and `tokLen` (len(target_tokenizer(pred)["input_ids"]))
abstract the external model/tokenizer collaborators; `score` abstracts
bleu.compute over the accumulated predictions/references (line 340) and is
fallible: none models an exception raised by the metric library — in
particular the datasets metric raises when compute() is called on an
accumulator into which no batch was ever added, i.e. whenever the dataloader
was empty.  `datasetLen` is len(dataloader.dataset).  Execution order as in
the source: the per-batch loop (lines 317-336), then model.train() (line
339), then bleu.compute (line 340), then the generation-length ratio
`n_generated_tokens / len(dataloader.dataset)` (line 344), which raises
ZeroDivisionError when the dataset is empty and compute returned a value.
There is no try/finally: an exception inside the loop propagates with the
mode still eval, while both post-loop failures propagate after the mode was
already restored to train.  The source's extra return values (the last
batch's input_ids and decoded texts, line 346) are not needed by any claim
and are omitted. -/
def evaluate_model (generate : List (List Nat) → Nat → Nat → Option (List (List Nat)))
    (decode : List Nat → String) (tokLen : String → Nat)
    (score : List String → List (List String) → Option ℚ)
    (batches : List EvalBatch) (datasetLen : Nat)
    (maxSeqLength numBeams : Nat) :
    Except PyError EvalResults × Mode :=
  match evalLoop generate decode tokLen maxSeqLength numBeams batches 0 [] [] with
  | none => (Except.error PyError.generationError, Mode.eval)
  | some (nGen, accPreds, accRefs) =>
    match score accPreds accRefs with
    | none => (Except.error PyError.bleuComputeError, Mode.train)
    | some bleuScore =>
      if datasetLen = 0 then (Except.error PyError.zeroDivisionError, Mode.train)
      else
        (Except.ok
          { bleu := bleuScore,
            generation_length := (nGen : ℚ) / (datasetLen : ℚ) }, Mode.train)

/-- The post-processed predictions of the whole evaluation pass, batch by
batch, concatenated in order (none if generation fails on some batch).  This
is the corpus-level prediction set the spec says BLEU is computed over. -/
def corpusPredictions (generate : List (List Nat) → Nat → Nat → Option (List (List Nat)))
    (decode : List Nat → String) (maxSeqLength numBeams : Nat) :
    List EvalBatch → Option (List String)
  | [] => some []
  | b :: rest => do
    let g ← generate b.input_ids maxSeqLength numBeams
    let restP ← corpusPredictions generate decode maxSeqLength numBeams rest
    pure ((postprocess_text (g.map decode) (b.labels.map decode)).1 ++ restP)

/-- The post-processed references of the whole evaluation pass, batch by
batch, concatenated in order (none if generation fails on some batch, since
the loop then never reaches bleu.add_batch for the remaining batches). -/
def corpusReferences (generate : List (List Nat) → Nat → Nat → Option (List (List Nat)))
    (decode : List Nat → String) (maxSeqLength numBeams : Nat) :
    List EvalBatch → Option (List (List String))
  | [] => some []
  | b :: rest => do
    let _ ← generate b.input_ids maxSeqLength numBeams
    let restR ← corpusReferences generate decode maxSeqLength numBeams rest
    pure ((postprocess_text [] (b.labels.map decode)).2 ++ restR)

/-- The total re-tokenized generated-token count of the whole evaluation pass
(the final value of n_generated_tokens), batch by batch. -/
def corpusTokenCount (generate : List (List Nat) → Nat → Nat → Option (List (List Nat)))
    (decode : List Nat → String) (tokLen : String → Nat)
    (maxSeqLength numBeams : Nat) :
    List EvalBatch → Option Nat
  | [] => some 0
  | b :: rest => do
    let g ← generate b.input_ids maxSeqLength numBeams
    let restN ← corpusTokenCount generate decode tokLen maxSeqLength numBeams rest
    pure (((g.map decode).map tokLen).sum + restN)

lemma evalLoop_decomposed (generate : List (List Nat) → Nat → Nat → Option (List (List Nat)))
    (decode : List Nat → String) (tokLen : String → Nat)
    (maxSeqLength numBeams : Nat) :
    ∀ (batches : List EvalBatch) (nGen : Nat) (accPreds : List String)
      (accRefs : List (List String)),
      evalLoop generate decode tokLen maxSeqLength numBeams batches nGen accPreds accRefs =
        (corpusTokenCount generate decode tokLen maxSeqLength numBeams batches).bind
          (fun tc => (corpusPredictions generate decode maxSeqLength numBeams batches).bind
            (fun cp => (corpusReferences generate decode maxSeqLength numBeams batches).map
              (fun cr => (nGen + tc, accPreds ++ cp, accRefs ++ cr)))) := by
  intro batches
  induction batches with
  | nil =>
    intro nGen accPreds accRefs
    simp [evalLoop, corpusTokenCount, corpusPredictions, corpusReferences]
  | cons b rest ih =>
    intro nGen accPreds accRefs
    simp only [evalLoop, corpusTokenCount, corpusPredictions, corpusReferences]
    cases hg : generate b.input_ids maxSeqLength numBeams with
    | none => simp [Option.bind]
    | some g =>
      simp only [Option.bind_eq_bind, Option.some_bind]
      rw [ih]
      cases htc : corpusTokenCount generate decode tokLen maxSeqLength numBeams rest with
      | none => simp
      | some tc =>
        cases hcp : corpusPredictions generate decode maxSeqLength numBeams rest with
        | none => simp
        | some cp =>
          cases hcr : corpusReferences generate decode maxSeqLength numBeams rest with
          | none => simp
          | some cr =>
            simp [postprocess_text]
            omega


/-- Claim C2 (counterexample): a concrete evaluation call on an empty
evaluation dataset (no batches, len(dataloader.dataset) = 0) fails, but not
with EmptyEvaluationSetError — an error class that appears nowhere in the
source.  With the real metric behaviour (bleu.compute() raises at line 340 on
an accumulator that never saw an add_batch) the error is the compute
exception; even under a hypothetical total compute, the next line reached —
the 0/0 ratio at line 344 — raises ZeroDivisionError.  Neither is
EmptyEvaluationSetError and no result is returned. -/
theorem evaluate_model_empty_counterexample_C2 :
    (evaluate_model (fun _ _ _ => some []) (fun _ => "") (fun _ => 0)
        (fun _ _ => none) [] 0 128 5).1 = Except.error PyError.bleuComputeError ∧
    (evaluate_model (fun _ _ _ => some []) (fun _ => "") (fun _ => 0)
        (fun _ _ => none) [] 0 128 5).1 ≠ Except.error PyError.emptyEvaluationSetError ∧
    (evaluate_model (fun _ _ _ => some []) (fun _ => "") (fun _ => 0)
        (fun _ _ => some 0) [] 0 128 5).1 = Except.error PyError.zeroDivisionError ∧
    (evaluate_model (fun _ _ _ => some []) (fun _ => "") (fun _ => 0)
        (fun _ _ => some 0) [] 0 128 5).1 ≠ Except.error PyError.emptyEvaluationSetError := by
  have e1 : (evaluate_model (fun _ _ _ => some []) (fun _ => "") (fun _ => 0)
      (fun _ _ => none) [] 0 128 5).1 = Except.error PyError.bleuComputeError := rfl
  have e2 : (evaluate_model (fun _ _ _ => some []) (fun _ => "") (fun _ => 0)
      (fun _ _ => some 0) [] 0 128 5).1 = Except.error PyError.zeroDivisionError := rfl
  exact ⟨e1, fun h => by simp [e1] at h, e2, fun h => by simp [e2] at h⟩

/-- Claim C2 (amended): on an empty evaluation dataset every evaluation call
fails with an unhandled exception and never returns a result — whatever the
metric collaborator does, the outcome is either the exception bleu.compute()
raises at line 340 on the empty accumulator (what the datasets metric
actually does when no add_batch ever ran) or, were compute to return, the
ZeroDivisionError of the 0/0 ratio at line 344 — and in no case an
EmptyEvaluationSetError, which does not exist in the code. -/
theorem evaluate_model_empty_fails_C2
    (generate : List (List Nat) → Nat → Nat → Option (List (List Nat)))
    (decode : List Nat → String) (tokLen : String → Nat)
    (score : List String → List (List String) → Option ℚ)
    (maxSeqLength numBeams : Nat) :
    ((evaluate_model generate decode tokLen score [] 0 maxSeqLength numBeams).1 =
        Except.error PyError.bleuComputeError ∨
      (evaluate_model generate decode tokLen score [] 0 maxSeqLength numBeams).1 =
        Except.error PyError.zeroDivisionError) ∧
    (∀ r : EvalResults,
      (evaluate_model generate decode tokLen score [] 0 maxSeqLength numBeams).1 ≠
        Except.ok r) ∧
    (evaluate_model generate decode tokLen score [] 0 maxSeqLength numBeams).1 ≠
      Except.error PyError.emptyEvaluationSetError := by
  have hloop : evalLoop generate decode tokLen maxSeqLength numBeams [] 0 [] [] =
      some (0, [], []) := rfl
  cases hs : score [] [] with
  | none =>
    have e : evaluate_model generate decode tokLen score [] 0 maxSeqLength numBeams =
        (Except.error PyError.bleuComputeError, Mode.train) := by
      unfold evaluate_model
      rw [hloop]
      dsimp only
      rw [hs]
    refine ⟨Or.inl (by rw [e]), fun r h => ?_, fun h => ?_⟩
    · rw [e] at h
      simp at h
    · rw [e] at h
      simp at h
  | some s =>
    have e : evaluate_model generate decode tokLen score [] 0 maxSeqLength numBeams =
        (Except.error PyError.zeroDivisionError, Mode.train) := by
      unfold evaluate_model
      rw [hloop]
      dsimp only
      rw [hs]
      rfl
    refine ⟨Or.inr (by rw [e]), fun r h => ?_, fun h => ?_⟩
    · rw [e] at h
      simp at h
    · rw [e] at h
      simp at h

/-- Claim C4 (counterexample): the restoration of training mode is not
unconditional.  model.eval() at line 316 and model.train() at line 339 are a
manually paired call pair with no try/finally; when generation raises inside
the per-batch loop the error propagates and the model is left in inference
mode. -/
theorem evaluate_model_mode_counterexample_C4 :
    (evaluate_model (fun _ _ _ => none) (fun _ => "") (fun _ => 0) (fun _ _ => some 0)
        [⟨[[1]], [[1]]⟩] 1 128 5).2 = Mode.eval ∧ Mode.eval ≠ Mode.train := by
  refine ⟨rfl, fun h => by cases h⟩

/-- Claim C4 (amended): the model is switched to inference mode for the
duration and restored to training mode whenever the per-batch loop completes
without raising (line 339 runs right after the loop, before bleu.compute and
the generation-length ratio, so both post-loop failures leave the model back
in training mode); but if an error is raised inside the per-batch loop, the
model stays in inference mode. -/
theorem evaluate_model_mode_restored_C4
    (generate : List (List Nat) → Nat → Nat → Option (List (List Nat)))
    (decode : List Nat → String) (tokLen : String → Nat)
    (score : List String → List (List String) → Option ℚ)
    (batches : List EvalBatch) (datasetLen maxSeqLength numBeams : Nat)
    (out : Nat × List String × List (List String))
    (h : evalLoop generate decode tokLen maxSeqLength numBeams batches 0 [] [] = some out) :
    (evaluate_model generate decode tokLen score batches datasetLen
      maxSeqLength numBeams).2 = Mode.train := by
  obtain ⟨n, p, r⟩ := out
  unfold evaluate_model
  rw [h]
  cases hs : score p r with
  | none => simp [hs]
  | some s =>
    by_cases hd : datasetLen = 0
    · simp [hs, hd]
    · simp [hs, hd]

/-- Witness for the amended C4 theorem: a concrete one-batch evaluation in
which generation succeeds; the final mode is train. -/
theorem evaluate_model_mode_restored_C4_witness :
    evalLoop (fun _ _ _ => some []) (fun _ => "") (fun _ => 0) 128 5
        [⟨[[1]], [[1]]⟩] 0 [] [] = some (0, [], [[""]]) ∧
    (evaluate_model (fun _ _ _ => some []) (fun _ => "") (fun _ => 0)
        (fun _ _ => some 0) [⟨[[1]], [[1]]⟩] 1 128 5).2 = Mode.train :=
  ⟨rfl, evaluate_model_mode_restored_C4 _ _ _ _ _ _ _ _ _ rfl⟩

lemma evaluate_model_eq
    (generate : List (List Nat) → Nat → Nat → Option (List (List Nat)))
    (decode : List Nat → String) (tokLen : String → Nat)
    (score : List String → List (List String) → Option ℚ)
    (batches : List EvalBatch) (datasetLen maxSeqLength numBeams : Nat)
    (tc : Nat) (cp : List String) (cr : List (List String)) (s : ℚ)
    (htc : corpusTokenCount generate decode tokLen maxSeqLength numBeams batches = some tc)
    (hcp : corpusPredictions generate decode maxSeqLength numBeams batches = some cp)
    (hcr : corpusReferences generate decode maxSeqLength numBeams batches = some cr)
    (hs : score cp cr = some s)
    (hd : datasetLen ≠ 0) :
    evaluate_model generate decode tokLen score batches datasetLen maxSeqLength numBeams =
      (Except.ok
        { bleu := s,
          generation_length := (tc : ℚ) / (datasetLen : ℚ) }, Mode.train) := by
  unfold evaluate_model
  rw [evalLoop_decomposed, htc, hcp, hcr]
  simp [hs, hd]

/-- Claim C5 (confirmed): per-batch predictions and references are appended to
the streaming bleu accumulator (bleu.add_batch, line 336) and the BLEU field
of the returned results is the value of the scoring collaborator applied
exactly once, after all batches are consumed (bleu.compute, line 340), to the
full accumulated prediction/reference set — the batchwise concatenation,
never a mean of per-batch scores. -/
theorem evaluate_model_corpus_bleu_C5
    (generate : List (List Nat) → Nat → Nat → Option (List (List Nat)))
    (decode : List Nat → String) (tokLen : String → Nat)
    (score : List String → List (List String) → Option ℚ)
    (batches : List EvalBatch) (datasetLen maxSeqLength numBeams : Nat)
    (res : EvalResults) (allPreds : List String) (allRefs : List (List String))
    (hres : (evaluate_model generate decode tokLen score batches datasetLen
        maxSeqLength numBeams).1 = Except.ok res)
    (hp : corpusPredictions generate decode maxSeqLength numBeams batches = some allPreds)
    (hr : corpusReferences generate decode maxSeqLength numBeams batches = some allRefs) :
    score allPreds allRefs = some res.bleu := by
  cases htc : corpusTokenCount generate decode tokLen maxSeqLength numBeams batches with
  | none =>
    unfold evaluate_model at hres
    rw [evalLoop_decomposed, htc] at hres
    simp at hres
  | some tc =>
    cases hsc : score allPreds allRefs with
    | none =>
      unfold evaluate_model at hres
      rw [evalLoop_decomposed, htc, hp, hr] at hres
      simp [hsc] at hres
    | some s =>
      by_cases hd : datasetLen = 0
      · unfold evaluate_model at hres
        rw [evalLoop_decomposed, htc, hp, hr] at hres
        simp [hsc, hd] at hres
      · have heq := evaluate_model_eq generate decode tokLen score batches datasetLen
          maxSeqLength numBeams tc allPreds allRefs s htc hp hr hsc hd
        rw [heq] at hres
        have h2 : Except.ok
            { bleu := s,
              generation_length := (tc : ℚ) / (datasetLen : ℚ) } = Except.ok res := hres
        have h3 := Except.ok.inj h2
        subst h3
        rfl

/-- Witness for the C5 theorem: a concrete two-batch evaluation (batch sizes 2
and 1); the BLEU field of the result equals the scorer applied to the three
accumulated predictions and references. -/
theorem evaluate_model_corpus_bleu_C5_witness :
    ∃ res : EvalResults,
      (evaluate_model (fun ids _ _ => some ids) (fun _ => "p") (fun _ => 1)
          (fun ps _ => some ((ps.length : ℚ)))
          [⟨[[1], [2]], [[3], [4]]⟩, ⟨[[5]], [[6]]⟩] 3 128 5).1 = Except.ok res ∧
      res.bleu = ((3 : Nat) : ℚ) := by
  have h1 : (evaluate_model (fun ids _ _ => some ids) (fun _ => "p") (fun _ => 1)
      (fun ps _ => some ((ps.length : ℚ)))
      [⟨[[1], [2]], [[3], [4]]⟩, ⟨[[5]], [[6]]⟩] 3 128 5).1 =
      Except.ok (⟨((3 : Nat) : ℚ), ((3 : Nat) : ℚ) / ((3 : Nat) : ℚ)⟩ : EvalResults) := rfl
  have h2 : corpusPredictions (fun ids _ _ => some ids) (fun _ => "p") 128 5
      [⟨[[1], [2]], [[3], [4]]⟩, ⟨[[5]], [[6]]⟩] = some ["p", "p", "p"] := rfl
  have h3 : corpusReferences (fun ids _ _ => some ids) (fun _ => "p") 128 5
      [⟨[[1], [2]], [[3], [4]]⟩, ⟨[[5]], [[6]]⟩] = some [["p"], ["p"], ["p"]] := rfl
  have h4 := evaluate_model_corpus_bleu_C5 _ _ _ _ _ _ _ _ _ _ _ h1 h2 h3
  have h5 : some (((["p", "p", "p"] : List String).length : ℚ)) =
      some (⟨((3 : Nat) : ℚ), ((3 : Nat) : ℚ) / ((3 : Nat) : ℚ)⟩ : EvalResults).bleu := h4
  exact ⟨_, h1, (Option.some.inj h5).symm⟩

/-- Claim C7 (confirmed): the generation_length of the returned results equals
the total re-tokenized generated-token count summed across all batches
(n_generated_tokens, lines 331-332) divided by the total number of evaluation
examples (len(dataloader.dataset), line 344; the dataloader's batches
partition the dataset, so that is the sum of the batch sizes) — not by the
number of batches. -/
theorem evaluate_model_genlength_C7
    (generate : List (List Nat) → Nat → Nat → Option (List (List Nat)))
    (decode : List Nat → String) (tokLen : String → Nat)
    (score : List String → List (List String) → Option ℚ)
    (batches : List EvalBatch) (datasetLen maxSeqLength numBeams : Nat)
    (res : EvalResults) (totTok : Nat)
    (hres : (evaluate_model generate decode tokLen score batches datasetLen
        maxSeqLength numBeams).1 = Except.ok res)
    (htok : corpusTokenCount generate decode tokLen maxSeqLength numBeams batches =
      some totTok)
    (hlen : datasetLen = (batches.map (fun b => b.input_ids.length)).sum) :
    res.generation_length =
      (totTok : ℚ) / (((batches.map (fun b => b.input_ids.length)).sum : Nat) : ℚ) := by
  cases hcp : corpusPredictions generate decode maxSeqLength numBeams batches with
  | none =>
    unfold evaluate_model at hres
    rw [evalLoop_decomposed, htok, hcp] at hres
    simp at hres
  | some cp =>
    cases hcr : corpusReferences generate decode maxSeqLength numBeams batches with
    | none =>
      unfold evaluate_model at hres
      rw [evalLoop_decomposed, htok, hcp, hcr] at hres
      simp at hres
    | some cr =>
      cases hsc : score cp cr with
      | none =>
        unfold evaluate_model at hres
        rw [evalLoop_decomposed, htok, hcp, hcr] at hres
        simp [hsc] at hres
      | some s =>
        by_cases hd : datasetLen = 0
        · unfold evaluate_model at hres
          rw [evalLoop_decomposed, htok, hcp, hcr] at hres
          simp [hsc, hd] at hres
        · have heq := evaluate_model_eq generate decode tokLen score batches datasetLen
            maxSeqLength numBeams totTok cp cr s htok hcp hcr hsc hd
          rw [heq] at hres
          have h2 : Except.ok
              { bleu := s,
                generation_length := (totTok : ℚ) / (datasetLen : ℚ) } =
              Except.ok res := hres
          have h3 := Except.ok.inj h2
          subst h3
          rw [hlen]

/-- Witness for the C7 theorem: a synthetic 3-example evaluation set split
into two batches (sizes 2 and 1) with generation lengths [2, 5, 8]; the
resulting generation_length is 15/3 = 5. -/
theorem evaluate_model_genlength_C7_witness :
    ∃ res : EvalResults,
      (evaluate_model (fun ids _ _ => some ids)
          (fun l => String.mk (List.replicate l.length 'a')) (fun s => s.length)
          (fun _ _ => some 0)
          [⟨[[1, 1], [1, 1, 1, 1, 1]], [[0], [0]]⟩, ⟨[[1, 1, 1, 1, 1, 1, 1, 1]], [[0]]⟩]
          3 128 5).1 = Except.ok res ∧
      res.generation_length = 5 := by
  have h1 : (evaluate_model (fun ids _ _ => some ids)
      (fun l => String.mk (List.replicate l.length 'a')) (fun s => s.length)
      (fun _ _ => some 0)
      [⟨[[1, 1], [1, 1, 1, 1, 1]], [[0], [0]]⟩, ⟨[[1, 1, 1, 1, 1, 1, 1, 1]], [[0]]⟩]
      3 128 5).1 =
      Except.ok (⟨0, ((15 : Nat) : ℚ) / ((3 : Nat) : ℚ)⟩ : EvalResults) := rfl
  have h2 : corpusTokenCount (fun ids _ _ => some ids)
      (fun l => String.mk (List.replicate l.length 'a')) (fun s => s.length) 128 5
      [⟨[[1, 1], [1, 1, 1, 1, 1]], [[0], [0]]⟩, ⟨[[1, 1, 1, 1, 1, 1, 1, 1]], [[0]]⟩] =
      some 15 := rfl
  have h3 : (3 : Nat) =
      (([⟨[[1, 1], [1, 1, 1, 1, 1]], [[0], [0]]⟩,
          ⟨[[1, 1, 1, 1, 1, 1, 1, 1]], [[0]]⟩] : List EvalBatch).map
        (fun b => b.input_ids.length)).sum := rfl
  have h4 := evaluate_model_genlength_C7 _ _ _ _ _ _ _ _ _ _ h1 h2 h3
  refine ⟨_, h1, ?_⟩
  rw [h4]
  show ((15 : Nat) : ℚ) / ((3 : Nat) : ℚ) = 5
  norm_num

/- ===== Generation policy (cli/train.py, lines 216-229, 322-326, 527-534) ===== -/

/-- The two arguments of parse_args that configure decoding:
--generation_type (choices greedy and beam_search, lines 216-220) and
--beam_size (lines 221-229, default 5). -/
structure TrainArgs where
  generation_type : String
  beam_size : Nat

/-- The number of beams main's evaluation call actually uses: main passes
beam_size=args.beam_size to evaluate_model (lines 527-534), which forwards it
to model.generate as num_beams (lines 322-326).  args.generation_type is
never read anywhere in the script after parsing, so the value is
args.beam_size regardless of args.generation_type. -/
def evalCallNumBeams (args : TrainArgs) : Nat := args.beam_size

/-- The decoding policy the spec describes (second definition, following the
spec text, for comparison with evalCallNumBeams): greedy decoding — a single
beam — when generation_type is "greedy", beam search with beam_size beams
when it is "beam_search". -/
def specNumBeams (generationType : String) (beamSize : Nat) : Nat :=
  if generationType = "greedy" then 1 else beamSize

/-- Claim C6 (code bug): with --generation_type greedy and the default
--beam_size 5, evaluation still generates with num_beams = 5 (beam search),
not greedily; the generation_type option is dead code.  The probe generate
function returns, per input row, one sequence of num_beams tokens, making the
beam width observable in generation_length: called the way main calls it the
result is 5; under the spec's greedy policy it would be 1. -/
theorem generation_type_ignored_C6 :
    evalCallNumBeams ⟨"greedy", 5⟩ = 5 ∧
    specNumBeams "greedy" 5 = 1 ∧
    (evaluate_model (fun ids _ nb => some (ids.map (fun _ => List.replicate nb 0)))
        (fun l => String.mk (List.replicate l.length 'a')) (fun s => s.length)
        (fun _ _ => some 0) [⟨[[1]], [[1]]⟩] 1 128
        (evalCallNumBeams ⟨"greedy", 5⟩)).1 =
      Except.ok ⟨0, ((5 : Nat) : ℚ) / ((1 : Nat) : ℚ)⟩ ∧
    (evaluate_model (fun ids _ nb => some (ids.map (fun _ => List.replicate nb 0)))
        (fun l => String.mk (List.replicate l.length 'a')) (fun s => s.length)
        (fun _ _ => some 0) [⟨[[1]], [[1]]⟩] 1 128
        (specNumBeams "greedy" 5)).1 =
      Except.ok ⟨0, ((1 : Nat) : ℚ) / ((1 : Nat) : ℚ)⟩ ∧
    ((5 : Nat) : ℚ) / ((1 : Nat) : ℚ) ≠ ((1 : Nat) : ℚ) / ((1 : Nat) : ℚ) := by
  refine ⟨rfl, rfl, rfl, rfl, by norm_num⟩

/- ===== Step Executor diagnostic accuracy (cli/train.py, main, lines 510-524) ===== -/

/-- Number of label positions that differ from the pad token:
`label_nonpad_mask = labels != tokenizer.pad_token_id` (line 516) followed by
`num_words_in_batch = label_nonpad_mask.sum().item()` (line 517). -/
def labelNonpadCount (labels : List (List Int)) (padTokenId : Int) : Nat :=
  (labels.map (fun row => row.countP (fun x => x != padTokenId))).sum

/-- Number of positions where the argmax prediction equals the label, counted
only over non-pad label positions:
`(predictions == labels).masked_select(label_nonpad_mask).sum().item()`
(line 519). -/
def correctNonpadCount (predictions labels : List (List Int)) (padTokenId : Int) : Nat :=
  ((predictions.zip labels).map
    (fun rp => (rp.1.zip rp.2).countP (fun pl => pl.1 == pl.2 && pl.2 != padTokenId))).sum

/-- The diagnostic accuracy of line 519:
`accuracy = (predictions == labels).masked_select(label_nonpad_mask).sum().item() / num_words_in_batch`.
The division is unguarded in the source; none models the Python
ZeroDivisionError raised when num_words_in_batch is 0. -/
def train_batch_word_accuracy (predictions labels : List (List Int))
    (padTokenId : Int) : Option ℚ :=
  let numWordsInBatch := labelNonpadCount labels padTokenId
  if numWordsInBatch = 0 then none
  else some ((correctNonpadCount predictions labels padTokenId : ℚ) /
    (numWordsInBatch : ℚ))

/-- Claim C3 (counterexample): on a batch in which every label position equals
pad_id (here pad_id = 0), the diagnostic accuracy computation divides by
num_words_in_batch = 0 and raises ZeroDivisionError (modelled as none) — on
this batch no defined degenerate value of any kind is reported, and main
(lines 510-524) contains no num_words_in_batch > 0 guard.  The division at
line 519 is the first operation that can fail on this path: the mask, the
masked_select, the sums and the .item() calls all succeed on an all-pad
batch, so the failure really is the Python int-by-zero division. -/
theorem accuracy_all_pad_counterexample_C3 :
    train_batch_word_accuracy [[1, 2], [3, 4]] [[0, 0], [0, 0]] 0 = none ∧
    ∀ q : ℚ, train_batch_word_accuracy [[1, 2], [3, 4]] [[0, 0], [0, 0]] 0 ≠ some q := by
  have e : train_batch_word_accuracy [[1, 2], [3, 4]] [[0, 0], [0, 0]] 0 = none := rfl
  refine ⟨e, fun q h => ?_⟩
  rw [e] at h
  exact Option.noConfusion h

/-- Claim C3 (amended): the diagnostic accuracy computation reports a defined
value exactly on batches with at least one non-pad label; on a batch whose
labels are all pad_id it raises ZeroDivisionError (the division at line 519
is unguarded). -/
theorem accuracy_defined_of_nonpad_C3 (predictions labels : List (List Int))
    (padTokenId : Int) (h : 0 < labelNonpadCount labels padTokenId) :
    train_batch_word_accuracy predictions labels padTokenId =
      some ((correctNonpadCount predictions labels padTokenId : ℚ) /
        (labelNonpadCount labels padTokenId : ℚ)) := by
  unfold train_batch_word_accuracy
  rw [if_neg (by omega)]

/-- Witness for the amended C3 theorem: a batch with one non-pad label
position; the accuracy is defined. -/
theorem accuracy_defined_of_nonpad_C3_witness :
    0 < labelNonpadCount [[1, 0]] 0 ∧
    train_batch_word_accuracy [[1, 2]] [[1, 0]] 0 =
      some ((correctNonpadCount [[1, 2]] [[1, 0]] 0 : ℚ) /
        (labelNonpadCount [[1, 0]] 0 : ℚ)) :=
  ⟨by decide, accuracy_defined_of_nonpad_C3 [[1, 2]] [[1, 0]] 0 (by decide)⟩

/- ===== Batch Collator (cli/train.py, collation_function_for_seq2seq, lines 287-303) ===== -/

/-- One tokenized example as produced by preprocessing: keys input_ids and
labels. -/
structure TokenizedExample where
  input_ids : List Nat
  labels : List Nat

/-- Modelled from the spec: utils.pad (the transformer_mt/utils.py module is
imported at line 42 but is not under src/).  Spec section 4.2: computes the
batch-local maximum length and right-pads every sequence to it with pad_id. -/
def pad (seqs : List (List Nat)) (padTokenId : Nat) : List (List Nat) :=
  seqs.map (fun s =>
    s ++ List.replicate ((seqs.map List.length).foldr max 0 - s.length) padTokenId)

/-- The collated batch dict assembled at lines 297-303. -/
structure CollatedBatch where
  input_ids : List (List Nat)
  labels : List (List Nat)
  encoder_padding_mask : List (List Bool)

/-- collation_function_for_seq2seq (lines 287-303): pads input_ids and labels
independently (lines 294-300) and derives the boolean mask
`collated_batch["encoder_padding_mask"] = collated_batch["input_ids"] == pad_token_id`
(line 302) by elementwise comparison on the padded input_ids matrix. -/
def collation_function_for_seq2seq (batch : List TokenizedExample)
    (padTokenId : Nat) : CollatedBatch :=
  { input_ids := pad (batch.map (fun ex => ex.input_ids)) padTokenId,
    labels := pad (batch.map (fun ex => ex.labels)) padTokenId,
    encoder_padding_mask :=
      (pad (batch.map (fun ex => ex.input_ids)) padTokenId).map
        (fun row => row.map (fun x => x == padTokenId)) }

/-- Entry (i, j) of a matrix given as a list of rows; none when out of
bounds. -/
def mget {α : Type} (m : List (List α)) (i j : Nat) : Option α :=
  m[i]?.bind (fun row => row[j]?)

lemma mget_map {α β : Type} (f : α → β) (m : List (List α)) (i j : Nat) :
    mget (m.map (fun row => row.map f)) i j = (mget m i j).map f := by
  unfold mget
  rw [List.getElem?_map]
  cases m[i]? with
  | none => rfl
  | some row => simp [List.getElem?_map]

/-- Claim C8 (confirmed): for every batch produced by the collator and every
in-bounds position (i, j), encoder_padding_mask[i][j] is true iff
input_ids[i][j] equals pad_id. -/
theorem encoder_padding_mask_iff_C8 (batch : List TokenizedExample)
    (padTokenId i j : Nat) (x : Nat) (b : Bool)
    (hx : mget (collation_function_for_seq2seq batch padTokenId).input_ids i j = some x)
    (hb : mget (collation_function_for_seq2seq batch padTokenId).encoder_padding_mask
      i j = some b) :
    b = true ↔ x = padTokenId := by
  have hmask : (collation_function_for_seq2seq batch padTokenId).encoder_padding_mask =
      ((collation_function_for_seq2seq batch padTokenId).input_ids).map
        (fun row => row.map (fun v => v == padTokenId)) := rfl
  rw [hmask, mget_map, hx] at hb
  simp only [Option.map_some', Option.some.injEq] at hb
  rw [← hb]
  simp

/-- Witness for the C8 theorem: a two-example batch whose first row gets one
pad token appended by collation; at position (0, 1) the input id is the pad id
and the mask is true. -/
theorem encoder_padding_mask_iff_C8_witness :
    mget (collation_function_for_seq2seq [⟨[5, 0], [1]⟩, ⟨[5], [2]⟩] 0).input_ids
        0 1 = some 0 ∧
    mget (collation_function_for_seq2seq [⟨[5, 0], [1]⟩, ⟨[5], [2]⟩] 0).encoder_padding_mask
        0 1 = some true ∧
    (true = true ↔ (0 : Nat) = 0) :=
  ⟨rfl, rfl, encoder_padding_mask_iff_C8 [⟨[5, 0], [1]⟩, ⟨[5], [2]⟩] 0 0 1 0 true rfl rfl⟩

/- ===== Sequence Preprocessor (cli/train.py, preprocess_function, lines 247-283) ===== -/

/-- The dict of tokenized sequences returned by preprocess_function: keys
input_ids (source side) and labels (target side). -/
structure ModelInputs where
  input_ids : List (List Nat)
  labels : List (List Nat)

/-- The library tokenizer call `tokenizer(texts, max_length=max_seq_length,
truncation=True, padding=True)` (lines 276 and 278), with the tokenizer
itself abstracted as `tok` (the tokenizer is an out-of-scope collaborator):
each text is tokenized, truncated to maxSeqLength tokens, and the resulting
sequences are padded to the batch-local maximum length with the pad token. -/
def tokenizerBatchCall (tok : String → List Nat) (padTokenId maxSeqLength : Nat)
    (texts : List String) : List (List Nat) :=
  pad (texts.map (fun t => (tok t).take maxSeqLength)) padTokenId

/-- preprocess_function (lines 247-283): prepends the fixed task-instruction
string "translate English to German: " to each source text (lines 272-273),
looks up source and target texts by their language keys (a missing key, the
Python KeyError, is none), tokenizes the prefixed sources (line 276) and —
independently, under as_target_tokenizer — the targets (lines 277-278), and
returns the model inputs with labels taken from the target tokenization
(lines 279-283).  `tokenize` and `targetTokenize` abstract the tokenizer's
two tokenization paths; each raw pair is an association list from language
code to text. -/
def preprocess_function (tokenize targetTokenize : String → List Nat)
    (padTokenId : Nat) (sourceLang targetLang : String) (maxSeqLength : Nat)
    (translation : List (List (String × String))) : Option ModelInputs := do
  let inputs ← translation.mapM
    (fun ex => (ex.lookup sourceLang).map
      (fun s => "translate English to German: " ++ s))
  let targets ← translation.mapM (fun ex => ex.lookup targetLang)
  some
    { input_ids := tokenizerBatchCall tokenize padTokenId maxSeqLength inputs,
      labels := tokenizerBatchCall targetTokenize padTokenId maxSeqLength targets }

lemma pad_singleton (s : List Nat) (padTokenId : Nat) : pad [s] padTokenId = [s] := by
  simp [pad]

lemma take_measures (l : List Nat) (h : l ≠ []) :
    l.take 10 ≠ [] ∧ (l.take 10).length ≤ 10 := by
  constructor
  · have hp : 0 < l.length := List.length_pos.mpr h
    have h2 : 0 < (l.take 10).length := by
      rw [List.length_take]
      omega
    exact List.length_pos.mp h2
  · rw [List.length_take]
    omega

/-- Claim C9 (confirmed): the preprocessor prepends the fixed
task-instruction string to the source text before tokenizing and tokenizes
source and target independently with truncation to max_seq_length.  For the
raw pair with en "Hello" and de "Hallo" and max_seq_length 10, the result has
input_ids tokenizing "translate English to German: Hello" and labels
tokenizing "Hallo", each truncated to at most 10 tokens, and both rows are
non-empty whenever the tokenizer returns a non-empty sequence on these
texts. -/
theorem preprocess_example_C9 (tokenize targetTokenize : String → List Nat)
    (padTokenId : Nat)
    (h1 : tokenize ("translate English to German: " ++ "Hello") ≠ [])
    (h2 : targetTokenize "Hallo" ≠ []) :
    ∃ m : ModelInputs,
      preprocess_function tokenize targetTokenize padTokenId "en" "de" 10
          [[("en", "Hello"), ("de", "Hallo")]] = some m ∧
      m.input_ids = [(tokenize ("translate English to German: " ++ "Hello")).take 10] ∧
      m.labels = [(targetTokenize "Hallo").take 10] ∧
      (∀ row ∈ m.input_ids, row ≠ [] ∧ row.length ≤ 10) ∧
      (∀ row ∈ m.labels, row ≠ [] ∧ row.length ≤ 10) := by
  have hstep : preprocess_function tokenize targetTokenize padTokenId "en" "de" 10
      [[("en", "Hello"), ("de", "Hallo")]] =
      some
        { input_ids := tokenizerBatchCall tokenize padTokenId 10
            ["translate English to German: " ++ "Hello"],
          labels := tokenizerBatchCall targetTokenize padTokenId 10 ["Hallo"] } := rfl
  have hi : tokenizerBatchCall tokenize padTokenId 10
      ["translate English to German: " ++ "Hello"] =
      [(tokenize ("translate English to German: " ++ "Hello")).take 10] :=
    pad_singleton _ _
  have hl : tokenizerBatchCall targetTokenize padTokenId 10 ["Hallo"] =
      [(targetTokenize "Hallo").take 10] :=
    pad_singleton _ _
  refine ⟨{ input_ids := [(tokenize ("translate English to German: " ++ "Hello")).take 10],
            labels := [(targetTokenize "Hallo").take 10] }, ?_, rfl, rfl, ?_, ?_⟩
  · rw [hstep, hi, hl]
  · intro row hrow
    rw [List.mem_singleton] at hrow
    subst hrow
    exact take_measures _ h1
  · intro row hrow
    rw [List.mem_singleton] at hrow
    subst hrow
    exact take_measures _ h2

/-- Witness for the C9 theorem with a concrete tokenizer pair: the source
path maps every text to [7], the target path to [3, 4]. -/
theorem preprocess_example_C9_witness :
    ∃ m : ModelInputs,
      preprocess_function (fun _ => [7]) (fun _ => [3, 4]) 0 "en" "de" 10
          [[("en", "Hello"), ("de", "Hallo")]] = some m ∧
      m.input_ids = [[7]] ∧ m.labels = [[3, 4]] := by
  obtain ⟨m, hm, hi, hl, _, _⟩ :=
    preprocess_example_C9 (fun _ => [7]) (fun _ => [3, 4]) 0 (by decide) (by decide)
  refine ⟨m, hm, ?_, ?_⟩
  · rw [hi]
    rfl
  · rw [hl]
    rfl

/- ===== Evaluation split selection (cli/train.py, main, line 409) ===== -/

/-- Line 409: `eval_dataset = processed_datasets["validation"] if "validaion"
in processed_datasets else processed_datasets["test"]`.  The membership test
uses the misspelled key "validaion".  The dataset dict is modelled as an
association list from split name to split; a missing key (the Python
KeyError) is none. -/
def selectEvalDataset {α : Type} (processed : List (String × α)) : Option α :=
  if (processed.lookup "validaion").isSome then processed.lookup "validation"
  else processed.lookup "test"

/-- Claim C10 (confirmed): whenever the processed dataset has no split
literally named "validaion" (no real dataset has), the evaluation dataset is
taken from the "test" split — even when a "validation" split is present. -/
theorem eval_split_is_test_C10 {α : Type} (processed : List (String × α))
    (h : processed.lookup "validaion" = none) :
    selectEvalDataset processed = processed.lookup "test" := by
  unfold selectEvalDataset
  rw [h]
  rfl

/-- Witness for the C10 theorem: a processed dataset with train, validation
and test splits; the evaluation split selected is test (value 2), not the
present validation split (value 1). -/
theorem eval_split_is_test_C10_witness :
    ([("train", 0), ("validation", 1), ("test", 2)] : List (String × Nat)).lookup
        "validaion" = none ∧
    ([("train", 0), ("validation", 1), ("test", 2)] : List (String × Nat)).lookup
        "validation" = some 1 ∧
    selectEvalDataset
        ([("train", 0), ("validation", 1), ("test", 2)] : List (String × Nat)) =
      some 2 := by
  refine ⟨rfl, rfl, ?_⟩
  rw [eval_split_is_test_C10
    ([("train", 0), ("validation", 1), ("test", 2)] : List (String × Nat)) rfl]
  rfl
